import Mathlib

/-!
Verification of the Smart UAE Agent tool layer.

This file gives a shallow embedding in Lean 4 of the tool functions of the
repository (src/smart_uae_agent/tools.py and src/smart_uae_agent/tools.fixed.py)
and proves or refutes the specified properties about them.

Python dictionaries are modelled as association lists (first matching key wins,
insertion order preserved); Python exceptions are modelled by explicit outcome
types; the remote HTTP service is modelled as an explicit input describing the
outcome of the network interaction; the binary64 floating-point computation
`math.ceil(subtotal * 1.1)` of tools.py is modelled exactly by round-to-nearest,
ties-to-even rounding over the rationals.
-/

set_option autoImplicit false

namespace SmartUAE

/-- Python values stored in the preference dictionaries: strings, `None`,
and lists of strings. -/
inductive Value where
  | vStr (s : String)
  | vNone
  | vList (l : List String)
  deriving DecidableEq, Repr

/-- Dictionary lookup, `d[k]` / `d.get(k)`: first entry with the given key. -/
def lookupS {α : Type} (d : List (String × α)) (k : String) : Option α :=
  (d.find? (fun p => p.1 == k)).map (fun p => p.2)

/-- Python dictionary assignment `d[k] = v`: replaces the value of the first
entry holding `k` (keeping its position), or appends a new entry at the end. -/
def dictSet (d : List (String × Value)) (k : String) (v : Value) :
    List (String × Value) :=
  match d with
  | [] => [(k, v)]
  | (k1, v1) :: t => if k1 = k then (k, v) :: t else (k1, v1) :: dictSet t k v

/-- Embeds `PreferencesStore.__init__` of tools.py: the initial store is
`budget_level = "mid"`, `interests = []`, `food = None`. -/
def prefsInit : List (String × Value) :=
  [("budget_level", Value.vStr "mid"), ("interests", Value.vList []),
   ("food", Value.vNone)]

/-- Embeds `PreferencesStore.__init__` of tools.fixed.py: the initial store is
`budget_level = "standard"`, `home_city = None`, `language = "en"`. -/
def prefsInitFixed : List (String × Value) :=
  [("budget_level", Value.vStr "standard"), ("home_city", Value.vNone),
   ("language", Value.vStr "en")]

/-- Embeds `PreferencesStore.get` of tools.py:
`self._store.get(key, default)`. -/
def prefsGet (d : List (String × Value)) (k : String) (default : Value) : Value :=
  (lookupS d k).getD default

/-- Embeds `PreferencesStore.update` of tools.py (`self._store.update(d)`) and
`PreferencesStore.set_many` of tools.fixed.py (assignment of every pair in
iteration order). -/
def prefsUpdate (d : List (String × Value)) (upds : List (String × Value)) :
    List (String × Value) :=
  upds.foldl (fun acc kv => dictSet acc kv.1 kv.2) d

/-- Python truthiness of an optional string argument: `None` and the empty
string are falsy. -/
def truthyStr : Option String → Bool
  | some s => s ≠ ""
  | none => false

/-- One conditional entry of the `updates` dictionary of `set_preferences`
(tools.fixed.py): the pair is added only when the argument is truthy. -/
def optUpd (o : Option String) (key : String) : List (String × Value) :=
  match o with
  | some s => if s ≠ "" then [(key, Value.vStr s)] else []
  | none => []

/-- Embeds the `set_preferences` tool of tools.fixed.py: builds `updates` from
the truthy arguments only (in the order budget_level, home_city, language) and
applies `PREFS.set_many(**updates)`. -/
def set_preferences (budget_level home_city language : Option String)
    (store : List (String × Value)) : List (String × Value) :=
  prefsUpdate store
    (optUpd budget_level "budget_level" ++ optUpd home_city "home_city" ++
     optUpd language "language")

/-! ### A heap model for the aliasing behaviour of `dict(self._store)`

`PreferencesStore.get_all` (tools.fixed.py) and `PreferencesStore.dump`
(tools.py) both execute `return dict(self._store)`.  To express that the
returned dictionary is a fresh copy, dictionaries are placed in an explicit
heap of cells addressed by natural numbers; `dict(...)` allocates a new cell
holding the same contents. -/

/-- A heap of Python dictionary objects; the address of a cell is its index. -/
structure Heap where
  cells : List (List (String × Value))
  deriving Repr

/-- Read the dictionary object at an address (unallocated reads give `[]`;
they are never exercised). -/
def readH (h : Heap) (a : Nat) : List (String × Value) :=
  h.cells.getD a []

/-- Overwrite the dictionary object at an address. -/
def writeH (h : Heap) (a : Nat) (d : List (String × Value)) : Heap :=
  ⟨h.cells.set a d⟩

/-- Allocate a fresh cell holding `d`; returns the new heap and the address. -/
def allocH (h : Heap) (d : List (String × Value)) : Heap × Nat :=
  (⟨h.cells ++ [d]⟩, h.cells.length)

/-- Embeds `PreferencesStore.get_all` of tools.fixed.py and
`PreferencesStore.dump` of tools.py: `return dict(self._store)` allocates a
fresh dictionary with the same contents as the store at `self`. -/
def snapshotH (h : Heap) (self : Nat) : Heap × Nat :=
  allocH h (readH h self)

/-- A single mutation `d[k] = v` applied to the dictionary object at `a`. -/
def dictSetH (h : Heap) (a : Nat) (k : String) (v : Value) : Heap :=
  writeH h a (dictSet (readH h a) k v)

/-- A sequence of key/value mutations applied to the dictionary object at `a`. -/
def mutateAll (h : Heap) (a : Nat) (muts : List (String × Value)) : Heap :=
  muts.foldl (fun hh kv => dictSetH hh a kv.1 kv.2) h

/-! ### String utilities mirroring the Python primitives used by the tools

Lean's own `String.toLower`, `String.trim` and `String.splitOn` are
implemented on UTF-8 byte positions and do not reduce inside the kernel, so
the Python `str` methods are modelled directly on the character lists. -/

/-- Python's `str.lower()` (ASCII). -/
def pyLower (s : String) : String :=
  ⟨s.data.map Char.toLower⟩

/-- ASCII whitespace, as stripped by Python's `str.strip()`. -/
def isSpaceChar (c : Char) : Bool :=
  c = ' ' || c = '\t' || c = '\n' || c = '\r'

/-- Python's `str.strip()`: remove leading and trailing whitespace. -/
def pyStrip (s : String) : String :=
  ⟨((s.data.dropWhile isSpaceChar).reverse.dropWhile isSpaceChar).reverse⟩

/-- Helper for `pySplitDash`, accumulating the current piece reversed. -/
def splitDashAux : List Char → List Char → List String
  | [], acc => [⟨acc.reverse⟩]
  | c :: t, acc =>
    if c = '-' then ⟨acc.reverse⟩ :: splitDashAux t []
    else splitDashAux t (c :: acc)

/-- Python's `s.split("-")`. -/
def pySplitDash (s : String) : List String :=
  splitDashAux s.data []

/-- Does `pre` occur at the head of `l`?  (Helper for the substring test.) -/
def listStartsWith : List Char → List Char → Bool
  | [], _ => true
  | _ :: _, [] => false
  | a :: as, b :: bs => a = b && listStartsWith as bs

/-- Does `needle` occur as a contiguous run inside `hay`? -/
def listInfixOf (needle : List Char) : List Char → Bool
  | [] => needle.isEmpty
  | c :: t => listStartsWith needle (c :: t) || listInfixOf needle t

/-- Python's substring test `needle in hay`. -/
def strContains (hay needle : String) : Bool :=
  listInfixOf needle.data hay.data

/-- Helper for `pyTitle`: `prevAlpha` records whether the previous character
was alphabetic. -/
def titleAux : List Char → Bool → List Char
  | [], _ => []
  | c :: t, prevAlpha =>
    (if prevAlpha then c.toLower else c.toUpper) :: titleAux t c.isAlpha

/-- Python's `str.title()`: upper-cases every alphabetic character that
follows a non-alphabetic one and lower-cases the rest (ASCII). -/
def pyTitle (s : String) : String :=
  ⟨titleAux s.data false⟩

/-- Helper for `pyDedup`, carrying the set of already seen strings. -/
def pyDedupAux : List String → List String → List String
  | [], _ => []
  | a :: t, seen =>
    if a ∈ seen then pyDedupAux t seen else a :: pyDedupAux t (a :: seen)

/-- Python's `list(dict.fromkeys(l))`: deduplication keeping the first
occurrence of each element, order preserved. -/
def pyDedup (l : List String) : List String :=
  pyDedupAux l []

/-! ### Knowledge base search (tools.fixed.py, `_search_json_kb`) -/

/-- One entry of the `cities` mapping of the knowledge document.  Both fields
are optional because `_search_json_kb` guards accesses with membership tests
(`"cultural_tips" in cities[city]`) or uses `.get(..., [])`. -/
structure CityEntry where
  top_attractions : Option (List String)
  cultural_tips : Option (List String)
  deriving DecidableEq, Repr

/-- The knowledge document (`uae_knowledge.json`): `cities`, `activities` and
`general_info` mappings, in document order. -/
structure KB where
  cities : List (String × CityEntry)
  activities : List (String × List String)
  general_info : List (String × String)
  deriving DecidableEq, Repr

/-- Result of `_search_json_kb`: the five distinct shapes of dictionary the
function can return. -/
inductive KBResult where
  | culturalTips (city : String) (tips : List String)
  | attractions (city : String) (items : List String)
  | generalInfo (info : List (String × String))
  | category (name : String) (items : List String)
  | whole (kb : KB)
  deriving DecidableEq, Repr

/-- Embeds the inner `detect_city` of `_search_json_kb`: first city of the
document whose lower-cased name occurs in the query, else the hard-coded
"Ras Al Khaimah" aliases, else `None`. -/
def detect_city (cities : List (String × CityEntry)) (q : String) :
    Option String :=
  match cities.find? (fun ce => strContains q (pyLower ce.1)) with
  | some ce => some ce.1
  | none =>
    if strContains q "ras al khaimah" || strContains q "rak" then
      some "Ras Al Khaimah"
    else none

/-- Cultural-tip keywords of the first branch of `_search_json_kb`. -/
def hasCulturalKw (q : String) : Bool :=
  strContains q "cultural tip" || strContains q "culture tip" ||
  strContains q "dress" || strContains q "ramadan"

/-- Attraction keywords of the second branch of `_search_json_kb`. -/
def hasAttractionKw (q : String) : Bool :=
  strContains q "attraction" || strContains q "thing to do" ||
  strContains q "what can i do" || strContains q "places to visit" ||
  strContains q "itinerary"

/-- General-info keywords of the third branch of `_search_json_kb`. -/
def hasGeneralKw (q : String) : Bool :=
  strContains q "currency" || strContains q "language" ||
  strContains q "best time" || strContains q "transport" ||
  strContains q "metro"

/-- The combined cultural tips used when the detected city has no
`cultural_tips` entry: all tips of all cities, deduplicated. -/
def allCulturalTips (cities : List (String × CityEntry)) : List String :=
  pyDedup (cities.foldl (fun acc ce => acc ++ ce.2.cultural_tips.getD []) [])

/-- The Ras Al Khaimah special case of the attraction branch: relaxation
activities mentioning "Ras Al Khaimah", with a hard-coded default. -/
def rakRecs (activities : List (String × List String)) : List String :=
  let recs := ((lookupS activities "relaxation").getD []).filter
    (fun x => strContains x "Ras Al Khaimah")
  if recs = [] then ["Beach resorts in Ras Al Khaimah"] else recs

/-- The query normalization `(query or "").lower().strip()` of
`_search_json_kb`. -/
def normQuery (query : String) : String :=
  pyStrip (pyLower query)

/-- Embeds `_search_json_kb` of tools.fixed.py.  The control flow mirrors the
source: branches that would fall through in Python (an attraction query with
no known city) continue to the later branches. -/
def search_json_kb (kb : KB) (query : String) : KBResult :=
  let q := normQuery query
  let city := detect_city kb.cities q
  if hasCulturalKw q then
    match city with
    | some c =>
      match lookupS kb.cities c with
      | some e =>
        match e.cultural_tips with
        | some tips => .culturalTips c tips
        | none => .culturalTips c (allCulturalTips kb.cities)
      | none => .culturalTips c (allCulturalTips kb.cities)
    | none => .culturalTips "general" (allCulturalTips kb.cities)
  else if hasAttractionKw q && city == some "Ras Al Khaimah" then
    .attractions "Ras Al Khaimah" (rakRecs kb.activities)
  else
    match
      (if hasAttractionKw q then
        city.bind (fun c => (lookupS kb.cities c).map (fun e => (c, e)))
      else none) with
    | some (c, e) => .attractions c (e.top_attractions.getD [])
    | none =>
      if hasGeneralKw q then .generalInfo kb.general_info
      else
        match ["adventure", "culture", "relaxation"].find?
            (fun b => strContains q b) with
        | some b => .category b ((lookupS kb.activities b).getD [])
        | none => .whole kb

/-- Modelled from the spec: the knowledge document `uae_knowledge.json` is not
under src/ (only its loader and consumers are).  Its shape follows spec
sections 3 and 6: a `cities` mapping for the three largest cities (each with
ordered `top_attractions` and `cultural_tips`), an `activities` mapping for
the three categories, and a `general_info` mapping.  "Ras Al Khaimah" is not a
`cities` key; it is served through the hard-coded alias and the relaxation
activities, as in `_search_json_kb`. -/
def kbUAE : KB :=
  { cities :=
      [("Dubai",
        { top_attractions :=
            some ["Burj Khalifa", "Dubai Mall", "Palm Jumeirah"],
          cultural_tips := some ["Dress modestly in malls"] }),
       ("Abu Dhabi",
        { top_attractions :=
            some ["Sheikh Zayed Grand Mosque", "Louvre Abu Dhabi"],
          cultural_tips := some ["Respect prayer times"] }),
       ("Sharjah",
        { top_attractions := some ["Sharjah Art Museum", "Al Noor Island"],
          cultural_tips := some ["Sharjah is a dry emirate"] })],
    activities :=
      [("adventure", ["Desert safari", "Skydiving over the Palm"]),
       ("culture", ["Old Dubai walking tour", "Heritage village visit"]),
       ("relaxation", ["Beach day at Ras Al Khaimah resorts", "Spa day"])],
    general_info :=
      [("currency", "UAE Dirham (AED)"),
       ("best_time", "November to March"),
       ("transport", "Metro, taxis and ride hailing")] }

/-! ### Prayer times (tools.fixed.py `prayer_times` and tools.py `prayer_times`) -/

/-- The five canonical prayer names, in the order the source lists them. -/
def FIVE_PRAYERS : List String :=
  ["Fajr", "Dhuhr", "Asr", "Maghrib", "Isha"]

/-- The static fallback table of tools.fixed.py `prayer_times`. -/
def FALLBACK : List (String × List (String × String)) :=
  [("Dubai",
    [("Fajr", "04:25"), ("Dhuhr", "12:25"), ("Asr", "15:55"),
     ("Maghrib", "18:49"), ("Isha", "20:19")]),
   ("Abu Dhabi",
    [("Fajr", "04:30"), ("Dhuhr", "12:30"), ("Asr", "16:00"),
     ("Maghrib", "18:53"), ("Isha", "20:23")]),
   ("Sharjah",
    [("Fajr", "04:26"), ("Dhuhr", "12:25"), ("Asr", "15:56"),
     ("Maghrib", "18:49"), ("Isha", "20:19")])]

/-- Outcome of the remote interaction inside the `try` block of
tools.fixed.py `prayer_times`.  The first three constructors are the failure
dispositions of the code: `requests.get` raising (timeout / connection
error), `resp.json()` raising (malformed body), and the `["data"]["timings"]`
access raising (missing fields — which is also how a non-200 error body
manifests, since the code never checks the status).  `ok` carries the parsed
timings mapping. -/
inductive Remote where
  | timeout
  | malformed
  | missingTimings
  | ok (timings : List (String × String))
  deriving DecidableEq, Repr

/-- A JSON value of the result object: a string or a nested string map. -/
inductive JVal where
  | s (v : String)
  | obj (entries : List (String × String))
  deriving DecidableEq, Repr

/-- `(city or "").strip().title() or "Dubai"` of tools.fixed.py. -/
def cityNorm (city : String) : String :=
  let t := pyTitle (pyStrip city)
  if t = "" then "Dubai" else t

/-- The date string used by tools.fixed.py `prayer_times`: the argument when
truthy, else today's date; then re-split on "-", falling back to today's
parts when the split does not give exactly three pieces (the `except` around
the unpacking). -/
def dateParts (date : Option String) (now : String × String × String) :
    String × String × String :=
  let nowStr := now.1 ++ "-" ++ now.2.1 ++ "-" ++ now.2.2
  let dstr := match date with
    | none => nowStr
    | some s => if s = "" then nowStr else s
  match pySplitDash dstr with
  | [y, m, d] => (y, m, d)
  | _ => now

/-- The `f"{yyyy}-{mm}-{dd}"` date string of the result objects of
tools.fixed.py `prayer_times`. -/
def dateStrOf (date : Option String) (now : String × String × String) :
    String :=
  (dateParts date now).1 ++ "-" ++ (dateParts date now).2.1 ++ "-" ++
    (dateParts date now).2.2

/-- The dictionary comprehension of tools.fixed.py:
`{k: timings[k] for k in FIVE if k in timings}`. -/
def extractFive (timings : List (String × String)) : List (String × String) :=
  FIVE_PRAYERS.filterMap (fun k => (lookupS timings k).map (fun v => (k, v)))

/-- The `try` block of tools.fixed.py `prayer_times` as an explicit
exception-or-value computation: `.error` is a raised Python exception
(swallowed by `except Exception: pass`), `.ok none` means the block completed
without returning (empty extraction), `.ok (some r)` is the live return. -/
def prayerTryBlock (cn ds : String) (remote : Remote) :
    Except String (Option (List (String × JVal))) :=
  match remote with
  | .timeout => .error "requests timeout"
  | .malformed => .error "json decode error"
  | .missingTimings => .error "KeyError"
  | .ok timings =>
    let out := extractFive timings
    if out = [] then .ok none
    else .ok (some [("city", .s cn), ("date", .s ds), ("prayer_times", .obj out)])

/-- Embeds the `prayer_times` tool of tools.fixed.py.  `now` stands for
`datetime.now()` (year, month, day strings); `remote` is the outcome of the
network interaction.  Any exception or fall-through of the `try` block lands
in the static-fallback return. -/
def prayer_times (city : String) (date : Option String)
    (now : String × String × String) (remote : Remote) :
    List (String × JVal) :=
  let cn := cityNorm city
  let ds := dateStrOf date now
  match prayerTryBlock cn ds remote with
  | .ok (some r) => r
  | _ =>
    [("city", .s cn), ("date", .s ds),
     ("prayer_times", .obj ((lookupS FALLBACK cn).getD
       ((lookupS FALLBACK "Dubai").getD []))),
     ("note", .s "Static fallback")]

/-- Outcome of the remote interaction of tools.py `prayer_times`:
`exn` is `requests.get` or `.json()` raising; `resp` is a parsed body with
its `code` comparison result, the `["date"]["timings"]` lookup outcome
(`none` = a `KeyError`, caught by the outer handler) and the `data.get("data")`
payload used by the non-200 branch. -/
inductive RemoteV1 where
  | exn (msg : String)
  | resp (is200 : Bool) (dateTimings : Option (List (String × String)))
      (errPayload : String)
  deriving DecidableEq, Repr

/-- Result of tools.py `prayer_times`: a timings result, an error payload, or
Python's implicit `None` return (taken whenever `date` is supplied, because
the whole body sits under `if date is None:`). -/
inductive PTv1 where
  | result (city date : String) (timings : List (String × String))
  | error (msg : String)
  | noneReturn
  deriving DecidableEq, Repr

/-- Embeds the `prayer_times` tool of tools.py.  `today` stands for
`dt.date.today().isoformat()`. -/
def prayer_times_v1 (city : String) (date : Option String) (today : String)
    (remote : RemoteV1) : PTv1 :=
  match date with
  | some _ => .noneReturn
  | none =>
    match remote with
    | .exn m => .error m
    | .resp is200 dateTimings errPayload =>
      if is200 then
        match dateTimings with
        | some t => .result city today t
        | none => .error "KeyError: date"
      else .error errPayload

/-- The timings object of a prayer-times result: the value of its
`prayer_times` key. -/
def timingsOf (r : List (String × JVal)) : List (String × String) :=
  match lookupS r "prayer_times" with
  | some (.obj t) => t
  | _ => []

/-- The key sequence of a timings object. -/
def keysOf (t : List (String × String)) : List String :=
  t.map (fun p => p.1)

/-! ### Exact model of the binary64 computation `math.ceil(s * 1.1)`

tools.py computes `total = math.ceil(subtotal * 1.10)` in double precision.
The decimal literal `1.1` is not representable in binary64; the value actually
used is `2476979795053773 / 2^51` (the nearest double, slightly above 11/10).
`subtotal` is an integer that converts to double exactly whenever
`|subtotal| < 2^53`; the product is then rounded once to the nearest double
(ties to even), and `math.ceil` of that double is exact.  The functions below
reproduce this bit-exactly over the integers: the exact product is the
integer `s * 2476979795053773` scaled by `2^51`, which is rounded to 53
significant bits and then ceiled. -/

/-- The integer significand of the binary64 value of the literal `1.1`:
`1.1` as a double equals `2476979795053773 / 2^51`. -/
def mantissa11 : Nat := 2476979795053773

/-- Fuel-bounded ⌊log₂⌋ (structural recursion, so that kernel reduction
works); `log2Fuel f n` is exact whenever `n < 2^f`. -/
def log2Fuel : Nat → Nat → Nat
  | 0, _ => 0
  | f + 1, n => if 2 ≤ n then log2Fuel f (n / 2) + 1 else 0

/-- ⌊log₂ n⌋, exact for `n < 2^128` — far beyond every reachable subtotal
(Python itself overflows converting an int of 2^1024 to float). -/
def natLog2 (n : Nat) : Nat := log2Fuel 128 n

/-- Round the exact value `m / 2^51` to 53 significant bits, round half to
even.  Returns `(m', k)` representing the rounded value `m' * 2^k / 2^51`. -/
def roundScaled (m : Nat) : Nat × Nat :=
  let b := natLog2 m
  if b ≤ 52 then (m, 0)
  else
    let k := b - 52
    let q := m / 2 ^ k
    let r := m % 2 ^ k
    let half := 2 ^ (k - 1)
    (if half < r ∨ (r = half ∧ q % 2 = 1) then q + 1 else q, k)

/-- Ceiling of the value `p.1 * 2^p.2 / 2^51` represented by `roundScaled`. -/
def ceilPosScaled (p : Nat × Nat) : Nat :=
  if 51 ≤ p.2 then p.1 * 2 ^ (p.2 - 51)
  else (p.1 + 2 ^ (51 - p.2) - 1) / 2 ^ (51 - p.2)

/-- Floor of the value `p.1 * 2^p.2 / 2^51` represented by `roundScaled`. -/
def floorPosScaled (p : Nat × Nat) : Nat :=
  if 51 ≤ p.2 then p.1 * 2 ^ (p.2 - 51)
  else p.1 / 2 ^ (51 - p.2)

/-- The Python expression `math.ceil(s * 1.1)` for an integer `s`, computed
bit-exactly for `|s| < 2^53` (binary64 rounding is symmetric under negation
and `ceil (-x) = -floor x`).  Checked against CPython on several hundred
values. -/
def pyCeilMul11 (s : Int) : Int :=
  if 0 ≤ s then (ceilPosScaled (roundScaled (s.toNat * mantissa11)) : Nat)
  else -(floorPosScaled (roundScaled ((-s).toNat * mantissa11)) : Nat)

/-! ### Budget estimators -/

/-- The `CITY_COSTS` accommodation table of tools.py (per day per traveller). -/
def CITY_COSTS : List (String × List (String × Int)) :=
  [("Dubai", [("budget", 100), ("mid", 150), ("luxe", 250)]),
   ("Abu Dhabi", [("budget", 50), ("mid", 120), ("luxe", 260)]),
   ("Sharjah", [("budget", 50), ("mid", 120), ("luxe", 260)]),
   ("General", [("budget", 50), ("mid", 120), ("luxe", 260)])]

/-- The `TRANSPORT_DAY` table of tools.py. -/
def TRANSPORT_DAY : List (String × Int) :=
  [("budget", 12), ("mid", 25), ("luxe", 60)]

/-- The `MEALS_DAY` table of tools.py. -/
def MEALS_DAY : List (String × Int) :=
  [("budget", 18), ("mid", 35), ("luxe", 80)]

/-- The `ATTRACTIONS` table of tools.py. -/
def ATTRACTIONS : List (String × Int) :=
  [("budget", 10), ("mid", 25), ("luxe", 50)]

/-- Rate lookup `tbl[lvl]`; the default 0 is unreachable because every caller
first coerces `lvl` into the table's key set. -/
def rateOf (tbl : List (String × Int)) (lvl : String) : Int :=
  (lookupS tbl lvl).getD 0

/-- The dictionary returned by tools.py `estimate_budget` (the constant
`assumptions_note` string is omitted; `round(x, 2)` on these integers is the
identity). -/
structure Breakdown where
  city : String
  days : Int
  travellers : Int
  budget_level : String
  accommodation : Int
  transport : Int
  meals : Int
  attractions : Int
  buffer_10pct : Int
  total : Int
  deriving DecidableEq, Repr

/-- The `prefs.get("budget_level", "mid")` read of tools.py
`estimate_budget`.  A stored non-string value would make Python raise at
`.lower()`; that case (never exercised here) is modelled as the default. -/
def prefsBudgetLevel (prefs : List (String × Value)) : String :=
  match lookupS prefs "budget_level" with
  | some (.vStr s) => s
  | some _ => "mid"
  | none => "mid"

/-- Embeds `estimate_budget` of tools.py: level defaulting via the preference
store, silent coercion of an unrecognized level to "mid", city row defaulting
to "General", per-category costs, and the binary64 total
`math.ceil(subtotal * 1.10)`. -/
def estimate_budget (city : String) (days travellers : Int)
    (budget_level : Option String) (prefs : List (String × Value)) :
    Breakdown :=
  let raw := match budget_level with
    | some s => if s = "" then prefsBudgetLevel prefs else s
    | none => prefsBudgetLevel prefs
  let lvl0 := pyLower raw
  let lvl := if lvl0 = "budget" ∨ lvl0 = "mid" ∨ lvl0 = "luxe" then lvl0
             else "mid"
  let base := (lookupS CITY_COSTS city).getD
    ((lookupS CITY_COSTS "General").getD [])
  let hotel := rateOf base lvl * days * travellers
  let transport := rateOf TRANSPORT_DAY lvl * days * travellers
  let meals := rateOf MEALS_DAY lvl * days * travellers
  let attractions := rateOf ATTRACTIONS lvl * days * travellers
  let subtotal := hotel + transport + meals + attractions
  let total := pyCeilMul11 subtotal
  { city := city, days := days, travellers := travellers,
    budget_level := lvl, accommodation := hotel, transport := transport,
    meals := meals, attractions := attractions,
    buffer_10pct := total - subtotal, total := total }

/-- The per-day rates of tools.fixed.py `estimate_budget`. -/
def RATES_FIXED : List (String × Int) :=
  [("budget", 150), ("standard", 400), ("luxury", 1000)]

/-- Result of tools.fixed.py `estimate_budget`: an error payload or a quote. -/
inductive BudgetFixed where
  | error (msg : String)
  | ok (city : String) (days : Int) (style : String) (rate_per_day_aed : Int)
      (estimated_total_aed : Int)
  deriving DecidableEq, Repr

/-- The style normalization `(style or "standard").lower().strip()` of
tools.fixed.py `estimate_budget`. -/
def normStyle (style : Option String) : String :=
  pyStrip (pyLower (match style with
    | some s => if s = "" then "standard" else s
    | none => "standard"))

/-- Embeds `estimate_budget` of tools.fixed.py: normalizes the style with
`(style or "standard").lower().strip()`, rejects styles outside
budget|standard|luxury and non-positive day counts with error payloads (in
that order), else returns `rates[style] * days`. -/
def estimate_budget_fixed (city : String) (days : Int)
    (style : Option String) : BudgetFixed :=
  let st := normStyle style
  if st = "budget" ∨ st = "standard" ∨ st = "luxury" then
    if days ≤ 0 then .error "days must be > 0"
    else .ok city days st (rateOf RATES_FIXED st) (rateOf RATES_FIXED st * days)
  else .error "style must be budget|standard|luxury"

/-- Is a fixed-variant budget result an error payload? -/
def isErrorF : BudgetFixed → Bool
  | .error _ => true
  | .ok _ _ _ _ _ => false

/-! ## Theorems -/

/-! ### Dictionary lemmas -/

theorem find?_dictSet_self (d : List (String × Value)) (k : String) (v : Value) :
    (dictSet d k v).find? (fun p => p.1 == k) = some (k, v) := by
  induction d with
  | nil => simp [dictSet]
  | cons p t ih =>
    obtain ⟨k1, v1⟩ := p
    by_cases hk : k1 = k
    · subst hk; simp [dictSet]
    · simpa [dictSet, hk] using ih

theorem find?_dictSet_ne (d : List (String × Value)) (k k' : String) (v : Value)
    (hne : k' ≠ k) :
    (dictSet d k v).find? (fun p => p.1 == k') = d.find? (fun p => p.1 == k') := by
  induction d with
  | nil => simp [dictSet, Ne.symm hne]
  | cons p t ih =>
    obtain ⟨k1, v1⟩ := p
    by_cases hk : k1 = k
    · subst hk
      simp [dictSet, Ne.symm hne]
    · by_cases hk' : k1 = k'
      · subst hk'; simp [dictSet, hk]
      · simp only [dictSet, if_neg hk]
        rw [List.find?_cons_of_neg _ (by simp [hk']),
          List.find?_cons_of_neg _ (by simp [hk']), ih]

theorem lookupS_dictSet_self (d : List (String × Value)) (k : String) (v : Value) :
    lookupS (dictSet d k v) k = some v := by
  simp [lookupS, find?_dictSet_self]

theorem lookupS_dictSet_ne (d : List (String × Value)) (k k' : String)
    (v : Value) (hne : k' ≠ k) :
    lookupS (dictSet d k v) k' = lookupS d k' := by
  simp [lookupS, find?_dictSet_ne d k k' v hne]

theorem prefsUpdate_append (d : List (String × Value))
    (u1 u2 : List (String × Value)) :
    prefsUpdate d (u1 ++ u2) = prefsUpdate (prefsUpdate d u1) u2 := by
  simp [prefsUpdate, List.foldl_append]

theorem prefsUpdate_nil (d : List (String × Value)) : prefsUpdate d [] = d :=
  rfl

theorem prefsUpdate_single (d : List (String × Value)) (k : String)
    (v : Value) : prefsUpdate d [(k, v)] = dictSet d k v :=
  rfl

theorem optUpd_of_not_truthy (o : Option String) (key : String)
    (h : truthyStr o = false) : optUpd o key = [] := by
  cases o with
  | none => rfl
  | some s =>
    simp only [truthyStr, decide_eq_false_iff_not, not_not] at h
    simp [optUpd, h]

theorem lookupS_prefsUpdate_optUpd_ne (d : List (String × Value))
    (o : Option String) (key k : String) (hne : k ≠ key) :
    lookupS (prefsUpdate d (optUpd o key)) k = lookupS d k := by
  cases o with
  | none => rfl
  | some s =>
    by_cases hs : s = ""
    · simp [optUpd, hs, prefsUpdate]
    · rw [show optUpd (some s) key = [(key, Value.vStr s)] by simp [optUpd, hs],
        prefsUpdate_single, lookupS_dictSet_ne _ _ _ _ hne]

/-! ### Claims C8, C9, C10 -/

/-- C8 (amended): in the tools.py preference store, a set of a key followed by
a get of the same key returns the value just set (both through a single
assignment and through `update`, which is what the `set_preferences` tool
calls); on a fresh store, `get` returns the initialized defaults
`budget_level = "mid"`, `interests = []`, `food = None`, while the keys
`home_city` and `language` are not initialized, so `get` returns its `default`
argument (`None` when omitted) — in particular `get("language")` returns
`None`, not `"en"`.  (The tools.fixed.py store initializes
`budget_level = "standard"`, `home_city = None` and `language = "en"`, but
exposes no single-key get.) -/
theorem claim_C8 :
    (∀ (d : List (String × Value)) (k : String) (v default : Value),
      prefsGet (dictSet d k v) k default = v) ∧
    (∀ (d : List (String × Value)) (k : String) (v default : Value),
      prefsGet (prefsUpdate d [(k, v)]) k default = v) ∧
    prefsGet prefsInit "budget_level" .vNone = .vStr "mid" ∧
    prefsGet prefsInit "interests" .vNone = .vList [] ∧
    prefsGet prefsInit "food" .vNone = .vNone ∧
    prefsGet prefsInit "home_city" .vNone = .vNone ∧
    prefsGet prefsInit "language" .vNone = .vNone ∧
    lookupS prefsInitFixed "budget_level" = some (.vStr "standard") ∧
    lookupS prefsInitFixed "language" = some (.vStr "en") := by
  refine ⟨fun d k v default => ?_, fun d k v default => ?_, ?_, ?_, ?_, ?_, ?_, ?_, ?_⟩
  · simp [prefsGet, lookupS_dictSet_self]
  · simp [prefsGet, prefsUpdate, lookupS_dictSet_self]
  all_goals decide

/-- C8 counterexample: on a fresh tools.py store, `get("language")` (default
`None`) returns `None`, not the `"en"` the claim states. -/
theorem claim_C8_counterexample :
    prefsGet prefsInit "language" .vNone = .vNone ∧
    prefsGet prefsInit "language" .vNone ≠ .vStr "en" := by
  constructor <;> decide

/-- C9: the fixed-variant `set_preferences` writes only the keys
budget_level, home_city and language; every other key of the store is
unchanged; each of the three keys is written exactly when its argument is a
truthy (non-`None`, non-empty) string, and is left unchanged otherwise, so a
preference can never be cleared through this tool. -/
theorem claim_C9 (b hc lg : Option String) (store : List (String × Value)) :
    (∀ k, k ≠ "budget_level" → k ≠ "home_city" → k ≠ "language" →
      lookupS (set_preferences b hc lg store) k = lookupS store k) ∧
    (truthyStr b = false →
      lookupS (set_preferences b hc lg store) "budget_level" =
        lookupS store "budget_level") ∧
    (∀ s, b = some s → s ≠ "" →
      lookupS (set_preferences b hc lg store) "budget_level" =
        some (.vStr s)) ∧
    (truthyStr hc = false →
      lookupS (set_preferences b hc lg store) "home_city" =
        lookupS store "home_city") ∧
    (∀ s, hc = some s → s ≠ "" →
      lookupS (set_preferences b hc lg store) "home_city" =
        some (.vStr s)) ∧
    (truthyStr lg = false →
      lookupS (set_preferences b hc lg store) "language" =
        lookupS store "language") ∧
    (∀ s, lg = some s → s ≠ "" →
      lookupS (set_preferences b hc lg store) "language" =
        some (.vStr s)) := by
  have hsp : set_preferences b hc lg store =
      prefsUpdate (prefsUpdate (prefsUpdate store (optUpd b "budget_level"))
        (optUpd hc "home_city")) (optUpd lg "language") := by
    simp [set_preferences, prefsUpdate_append]
  refine ⟨fun k h1 h2 h3 => ?_, fun ht => ?_, fun s hb hs => ?_, fun ht => ?_,
    fun s hb hs => ?_, fun ht => ?_, fun s hb hs => ?_⟩
  · rw [hsp, lookupS_prefsUpdate_optUpd_ne _ _ _ _ h3,
      lookupS_prefsUpdate_optUpd_ne _ _ _ _ h2,
      lookupS_prefsUpdate_optUpd_ne _ _ _ _ h1]
  · rw [hsp, lookupS_prefsUpdate_optUpd_ne _ _ _ _ (by decide),
      lookupS_prefsUpdate_optUpd_ne _ _ _ _ (by decide),
      optUpd_of_not_truthy _ _ ht, prefsUpdate_nil]
  · subst hb
    rw [hsp, lookupS_prefsUpdate_optUpd_ne _ _ _ _ (by decide),
      lookupS_prefsUpdate_optUpd_ne _ _ _ _ (by decide),
      show optUpd (some s) "budget_level" = [("budget_level", Value.vStr s)]
        by simp [optUpd, hs],
      prefsUpdate_single, lookupS_dictSet_self]
  · rw [hsp, lookupS_prefsUpdate_optUpd_ne _ _ _ _ (by decide),
      optUpd_of_not_truthy _ _ ht, prefsUpdate_nil,
      lookupS_prefsUpdate_optUpd_ne _ _ _ _ (by decide)]
  · subst hb
    rw [hsp, lookupS_prefsUpdate_optUpd_ne _ _ _ _ (by decide),
      show optUpd (some s) "home_city" = [("home_city", Value.vStr s)]
        by simp [optUpd, hs],
      prefsUpdate_single, lookupS_dictSet_self]
  · rw [hsp, optUpd_of_not_truthy _ _ ht, prefsUpdate_nil,
      lookupS_prefsUpdate_optUpd_ne _ _ _ _ (by decide),
      lookupS_prefsUpdate_optUpd_ne _ _ _ _ (by decide)]
  · subst hb
    rw [hsp,
      show optUpd (some s) "language" = [("language", Value.vStr s)]
        by simp [optUpd, hs],
      prefsUpdate_single, lookupS_dictSet_self]

/-- C9 witness: a concrete call setting budget_level to "luxe", passing
`None` for home_city and the empty string for language, on the fixed store:
an unrelated key is unchanged, home_city and language keep their stored
values, budget_level is written. -/
theorem claim_C9_witness :
    lookupS (set_preferences (some "luxe") none (some "") prefsInitFixed)
      "food" = lookupS prefsInitFixed "food" ∧
    lookupS (set_preferences (some "luxe") none (some "") prefsInitFixed)
      "home_city" = lookupS prefsInitFixed "home_city" ∧
    lookupS (set_preferences (some "luxe") none (some "") prefsInitFixed)
      "language" = lookupS prefsInitFixed "language" ∧
    lookupS (set_preferences (some "luxe") none (some "") prefsInitFixed)
      "budget_level" = some (.vStr "luxe") := by
  obtain ⟨h1, h2, h3, h4, h5, h6, h7⟩ :=
    claim_C9 (some "luxe") none (some "") prefsInitFixed
  exact ⟨h1 "food" (by decide) (by decide) (by decide), h4 (by decide),
    h6 (by decide), h3 "luxe" rfl (by decide)⟩

/-! ### Heap lemmas for the snapshot claim -/

theorem readH_dictSetH_ne (hh : Heap) (a b : Nat) (k : String) (v : Value)
    (hne : b ≠ a) : readH (dictSetH hh b k v) a = readH hh a := by
  simp [dictSetH, writeH, readH, List.getD_eq_getElem?_getD,
    List.getElem?_set_ne hne]

theorem readH_mutateAll_ne (muts : List (String × Value)) (hh : Heap)
    (a b : Nat) (hne : b ≠ a) : readH (mutateAll hh b muts) a = readH hh a := by
  induction muts generalizing hh with
  | nil => rfl
  | cons kv t ih =>
    show readH (mutateAll (dictSetH hh b kv.1 kv.2) b t) a = readH hh a
    rw [ih (dictSetH hh b kv.1 kv.2), readH_dictSetH_ne _ _ _ _ _ hne]

/-- C10: the snapshot operations (`get_all` of tools.fixed.py and `dump` of
tools.py, both `return dict(self._store)`) allocate a fresh copy of the
store: the copy holds the same contents, and any sequence of mutations
applied to the copy leaves the store's contents — hence every later get —
unchanged. -/
theorem claim_C10 (h : Heap) (self : Nat) (muts : List (String × Value))
    (hv : self < h.cells.length) :
    readH (snapshotH h self).1 (snapshotH h self).2 = readH h self ∧
    readH (mutateAll (snapshotH h self).1 (snapshotH h self).2 muts) self =
      readH h self := by
  have hne : h.cells.length ≠ self := (Nat.ne_of_lt hv).symm
  constructor
  · show readH ⟨h.cells ++ [readH h self]⟩ h.cells.length = readH h self
    simp [readH, List.getD_eq_getElem?_getD, List.getElem?_concat_length]
  · rw [show (snapshotH h self).2 = h.cells.length from rfl,
      readH_mutateAll_ne _ _ _ _ hne]
    show readH ⟨h.cells ++ [readH h self]⟩ self = readH h self
    simp [readH, List.getD_eq_getElem?_getD, List.getElem?_append_left hv]

/-- C10 witness: a one-cell heap holding the tools.py store; mutating the
snapshot does not change the store. -/
theorem claim_C10_witness :
    readH (mutateAll (snapshotH ⟨[prefsInit]⟩ 0).1 (snapshotH ⟨[prefsInit]⟩ 0).2
      [("budget_level", .vStr "luxe")]) 0 = readH ⟨[prefsInit]⟩ 0 := by
  exact (claim_C10 ⟨[prefsInit]⟩ 0 [("budget_level", .vStr "luxe")]
    (by decide)).2

/-! ### Claims C1 and C4 (prayer times) -/

/-- C1 counterexample to the claim as stated: (a) in the tools.py variant of
`prayer_times` (cited by the claim), a remote failure returns an
error-tagged payload — not a fallback table — and supplying a date returns
no result at all; (b) even in the tools.fixed.py variant, the fallback
result carries no `source` key: the only tag is the `note` field. -/
theorem claim_C1_counterexample :
    prayer_times_v1 "Dubai" none "2025-06-01" (.exn "timed out") =
      .error "timed out" ∧
    prayer_times_v1 "Dubai" (some "2025-06-01") "2025-06-01"
      (.resp true (some [("Fajr", "04:25")]) "") = .noneReturn ∧
    lookupS (prayer_times "Dubai" none ("2025", "06", "01") .timeout)
      "source" = none ∧
    lookupS (prayer_times "Dubai" none ("2025", "06", "01") .timeout)
      "note" = some (.s "Static fallback") := by
  refine ⟨rfl, rfl, ?_, ?_⟩ <;> decide

/-- C1 (amended): the tools.fixed.py `prayer_times` never raises — every
exception of its `try` block (timeout, malformed response, missing fields,
which is also how a non-200 error body manifests) is absorbed, and the call
returns the static per-city fallback table (the Dubai row for cities not in
the table), tagged by the `note` field `"Static fallback"` rather than a
`source` key.  The tools.py variant returns an error payload (or no result)
instead of a fallback, as the counterexample records. -/
theorem claim_C1 (city : String) (date : Option String)
    (now : String × String × String) (remote : Remote) (e : String)
    (hfail : prayerTryBlock (cityNorm city) (dateStrOf date now) remote =
      .error e) :
    prayer_times city date now remote =
      [("city", .s (cityNorm city)), ("date", .s (dateStrOf date now)),
       ("prayer_times", .obj ((lookupS FALLBACK (cityNorm city)).getD
         ((lookupS FALLBACK "Dubai").getD []))),
       ("note", .s "Static fallback")] := by
  simp only [prayer_times]
  rw [hfail]

/-- C1 witness: a timed-out call for "Dubai" returns the Dubai fallback row
with the note tag. -/
theorem claim_C1_witness :
    prayer_times "Dubai" none ("2025", "06", "01") .timeout =
      [("city", .s "Dubai"), ("date", .s "2025-06-01"),
       ("prayer_times", .obj
         [("Fajr", "04:25"), ("Dhuhr", "12:25"), ("Asr", "15:55"),
          ("Maghrib", "18:49"), ("Isha", "20:19")]),
       ("note", .s "Static fallback")] := by
  have h := claim_C1 "Dubai" none ("2025", "06", "01") .timeout
    "requests timeout" rfl
  rw [h]
  decide

/-- Every fallback row selected from the static table has exactly the five
canonical prayer names as its keys, in canonical order. -/
theorem fallbackRow_keys (cn : String) :
    keysOf ((lookupS FALLBACK cn).getD ((lookupS FALLBACK "Dubai").getD [])) =
      FIVE_PRAYERS := by
  rcases hfind : lookupS FALLBACK cn with _ | row
  · decide
  · obtain ⟨p, hp, hrow⟩ := Option.map_eq_some'.mp hfind
    have hmem := List.mem_of_find?_eq_some hp
    subst hrow
    simp only [FALLBACK, List.mem_cons, List.not_mem_nil, or_false] at hmem
    rcases hmem with h | h | h <;> subst h <;> decide

/-- The keys of a live extraction are a subset of the five canonical names. -/
theorem keysOf_extractFive_subset (t : List (String × String)) :
    keysOf (extractFive t) ⊆ FIVE_PRAYERS := by
  intro x hx
  simp only [keysOf, extractFive, List.mem_map, List.mem_filterMap,
    Option.map_eq_some'] at hx
  obtain ⟨p, ⟨a, ha, v, _, hav⟩, hx⟩ := hx
  subst hav
  simpa [← hx] using ha

/-- tools.fixed.py `prayer_times` returns the static-fallback object on
every execution whose `try` block produces no live return — both the raised
exceptions and the completed block whose five-name extraction was empty (the
`if out:` gate fails and control falls through to the fallback return). -/
theorem prayer_times_fallback_eq (city : String) (date : Option String)
    (now : String × String × String) (remote : Remote)
    (hnl : ∀ r, prayerTryBlock (cityNorm city) (dateStrOf date now) remote ≠
      .ok (some r)) :
    prayer_times city date now remote =
      [("city", .s (cityNorm city)), ("date", .s (dateStrOf date now)),
       ("prayer_times", .obj ((lookupS FALLBACK (cityNorm city)).getD
         ((lookupS FALLBACK "Dubai").getD []))),
       ("note", .s "Static fallback")] := by
  cases hres : prayerTryBlock (cityNorm city) (dateStrOf date now) remote with
  | error e => simp only [prayer_times, hres]
  | ok o =>
    cases o with
    | none => simp only [prayer_times, hres]
    | some r => exact absurd hres (hnl r)

/-- C4: whenever tools.fixed.py `prayer_times` takes the fallback path —
that is, whenever the `try` block produces no live return, whether through
an exception or through a parsed response whose five-name extraction is
empty — the returned timing set is the selected static row: the city's own
row when the normalized city is in the table, the Dubai row otherwise,
whose keys are exactly the five canonical names.  When the live path
succeeds (a parsed response whose extraction is non-empty), the returned
timings are the extraction, whose keys are a subset of the five canonical
names. -/
theorem claim_C4 (city : String) (date : Option String)
    (now : String × String × String) (remote : Remote) :
    ((∀ r, prayerTryBlock (cityNorm city) (dateStrOf date now) remote ≠
        .ok (some r)) →
      timingsOf (prayer_times city date now remote) =
        (lookupS FALLBACK (cityNorm city)).getD
          ((lookupS FALLBACK "Dubai").getD []) ∧
      keysOf (timingsOf (prayer_times city date now remote)) =
        FIVE_PRAYERS) ∧
    (∀ t, remote = .ok t → extractFive t ≠ [] →
      timingsOf (prayer_times city date now remote) = extractFive t ∧
      keysOf (timingsOf (prayer_times city date now remote)) ⊆
        FIVE_PRAYERS) := by
  constructor
  · intro hnl
    rw [prayer_times_fallback_eq city date now remote hnl]
    exact ⟨by simp [timingsOf, lookupS], by
      simp only [timingsOf, lookupS]
      simpa [lookupS] using fallbackRow_keys (cityNorm city)⟩
  · intro t ht hne
    subst ht
    have hres : prayer_times city date now (.ok t) =
        [("city", .s (cityNorm city)), ("date", .s (dateStrOf date now)),
         ("prayer_times", .obj (extractFive t))] := by
      simp only [prayer_times, prayerTryBlock]
      rw [if_neg hne]
    rw [hres]
    have htim : timingsOf
        [("city", JVal.s (cityNorm city)), ("date", .s (dateStrOf date now)),
         ("prayer_times", .obj (extractFive t))] = extractFive t := by
      simp [timingsOf, lookupS]
    rw [htim]
    exact ⟨rfl, keysOf_extractFive_subset t⟩

/-- C4 witness: a malformed response for "abu dhabi" falls back to the
Abu Dhabi row with exactly the five canonical keys; a live response
containing one canonical and one exotic key keeps only a subset of the five
canonical keys; and a parsed response containing none of the five names
(empty extraction) also falls back, to the Dubai row with exactly the five
canonical keys. -/
theorem claim_C4_witness :
    timingsOf (prayer_times "abu dhabi" none ("2025", "06", "01")
      .malformed) =
      [("Fajr", "04:30"), ("Dhuhr", "12:30"), ("Asr", "16:00"),
       ("Maghrib", "18:53"), ("Isha", "20:23")] ∧
    keysOf (timingsOf (prayer_times "abu dhabi" none ("2025", "06", "01")
      .malformed)) = FIVE_PRAYERS ∧
    timingsOf (prayer_times "Dubai" none ("2025", "06", "01")
      (.ok [("Fajr", "05:00"), ("Sunrise", "06:10")])) =
      [("Fajr", "05:00")] ∧
    keysOf (timingsOf (prayer_times "Dubai" none ("2025", "06", "01")
      (.ok [("Fajr", "05:00"), ("Sunrise", "06:10")]))) ⊆ FIVE_PRAYERS ∧
    timingsOf (prayer_times "Dubai" none ("2025", "06", "01")
      (.ok [("Sunrise", "06:10")])) =
      [("Fajr", "04:25"), ("Dhuhr", "12:25"), ("Asr", "15:55"),
       ("Maghrib", "18:49"), ("Isha", "20:19")] ∧
    keysOf (timingsOf (prayer_times "Dubai" none ("2025", "06", "01")
      (.ok [("Sunrise", "06:10")]))) = FIVE_PRAYERS := by
  obtain ⟨hfall, -⟩ :=
    claim_C4 "abu dhabi" none ("2025", "06", "01") .malformed
  obtain ⟨-, hlive⟩ := claim_C4 "Dubai" none ("2025", "06", "01")
    (.ok [("Fajr", "05:00"), ("Sunrise", "06:10")])
  obtain ⟨hempty, -⟩ := claim_C4 "Dubai" none ("2025", "06", "01")
    (.ok [("Sunrise", "06:10")])
  obtain ⟨h1, h2⟩ := hfall (by
    intro r h
    rw [show prayerTryBlock (cityNorm "abu dhabi")
      (dateStrOf none ("2025", "06", "01")) .malformed =
      Except.error "json decode error" from rfl] at h
    exact Except.noConfusion h)
  obtain ⟨h3, h4⟩ := hlive [("Fajr", "05:00"), ("Sunrise", "06:10")] rfl
    (by decide)
  obtain ⟨h5, h6⟩ := hempty (by
    intro r h
    rw [show prayerTryBlock (cityNorm "Dubai")
      (dateStrOf none ("2025", "06", "01")) (.ok [("Sunrise", "06:10")]) =
      Except.ok none from rfl] at h
    exact Option.noConfusion (Except.ok.inj h))
  refine ⟨?_, h2, ?_, h4, ?_, h6⟩
  · rw [h1]; decide
  · rw [h3]; decide
  · rw [h5]; decide

/-! ### Claims C5 and C6 (knowledge search) -/

/-- C5: `_search_json_kb` is a total function (it never raises for any query
over a well-formed knowledge document), and for every query matched by no
rule — no cultural-tip keyword, no attraction keyword, no general-info
keyword and no activity-category keyword in the normalized query — it
returns the entire knowledge document, not an empty result. -/
theorem claim_C5 (kb : KB) (query : String)
    (h1 : hasCulturalKw (normQuery query) = false)
    (h2 : hasAttractionKw (normQuery query) = false)
    (h3 : hasGeneralKw (normQuery query) = false)
    (h4 : ["adventure", "culture", "relaxation"].find?
      (fun b => strContains (normQuery query) b) = none) :
    search_json_kb kb query = .whole kb := by
  simp [search_json_kb, h1, h2, h3, h4]

/-- C5 witness: the generic query "hello there" returns the whole modelled
knowledge document. -/
theorem claim_C5_witness :
    search_json_kb kbUAE "hello there" = .whole kbUAE :=
  claim_C5 kbUAE "hello there" (by decide) (by decide) (by decide)
    (by decide)

/-- C6: over the modelled knowledge document, every query whose detected
city is a city of the document and which contains an attraction keyword but
no (higher-priority) cultural-tip keyword is answered with that city's
`top_attractions` list, verbatim and in order.  (The detected city of such a
document is never "Ras Al Khaimah", so the special Ras-Al-Khaimah branch is
not taken.) -/
theorem claim_C6 (query : String) (c : String) (e : CityEntry)
    (hdet : detect_city kbUAE.cities (normQuery query) = some c)
    (hknown : lookupS kbUAE.cities c = some e)
    (hattr : hasAttractionKw (normQuery query) = true)
    (hcult : hasCulturalKw (normQuery query) = false) :
    search_json_kb kbUAE query = .attractions c (e.top_attractions.getD []) := by
  have hcRAK : c ≠ "Ras Al Khaimah" := by
    obtain ⟨p, hp, -⟩ := Option.map_eq_some'.mp hknown
    have hbeq : p.1 = c := by simpa using List.find?_some hp
    have hmem := List.mem_of_find?_eq_some hp
    simp only [kbUAE, List.mem_cons, List.not_mem_nil, or_false] at hmem
    rcases hmem with h | h | h <;> rw [h] at hbeq <;> rw [← hbeq] <;> decide
  simp [search_json_kb, hdet, hknown, hattr, hcult, hcRAK]

/-- C6 witness: "Top attractions in Dubai" returns Dubai's attraction list
verbatim. -/
theorem claim_C6_witness :
    search_json_kb kbUAE "Top attractions in Dubai" =
      .attractions "Dubai" ["Burj Khalifa", "Dubai Mall", "Palm Jumeirah"] :=
  claim_C6 "Top attractions in Dubai" "Dubai"
    { top_attractions := some ["Burj Khalifa", "Dubai Mall", "Palm Jumeirah"],
      cultural_tips := some ["Dress modestly in malls"] }
    (by decide) (by decide) (by decide) (by decide)

/-! ### Claims C2, C3 and C7 (budget estimation) -/

/-- C2 counterexample to the claim as stated: at city "Unknown City",
days = 2, travelers = 1, tier "mid", the categories sum to 410 but the code's
total is 452, while `ceil(410 * 1.10)` in exact arithmetic is 451.  (In
binary64, `410 * 1.1` evaluates to `451.00000000000006`, and `math.ceil`
rounds it up to 452.) -/
theorem claim_C2_counterexample :
    (estimate_budget "Unknown City" 2 1 (some "mid") prefsInit).accommodation +
      (estimate_budget "Unknown City" 2 1 (some "mid") prefsInit).transport +
      (estimate_budget "Unknown City" 2 1 (some "mid") prefsInit).meals +
      (estimate_budget "Unknown City" 2 1 (some "mid") prefsInit).attractions
        = 410 ∧
    (estimate_budget "Unknown City" 2 1 (some "mid") prefsInit).total = 452 ∧
    ⌈((410 : ℚ) * (11 / 10))⌉ = 451 := by
  refine ⟨by decide, by decide, ?_⟩
  norm_num

/-- C2 (amended): for every valid input (days ≥ 1, travelers ≥ 1, tier one of
budget/mid/luxe), each category of the tools.py budget estimate equals
`rate[tier] * days * travelers` (the accommodation rate keyed by the city row,
the others tier-only), the total equals `math.ceil(subtotal * 1.10)` computed
in binary64 floating point — which can exceed the exact-arithmetic
`ceil(subtotal * 11/10)` by one, as the counterexample records — and the 10%
buffer is surfaced as its own `buffer_10pct` line item equal to
`total - subtotal`. -/
theorem claim_C2 (city : String) (days travellers : Int) (lvl : String)
    (prefs : List (String × Value)) (_hd : 1 ≤ days) (_ht : 1 ≤ travellers)
    (hlvl : lvl = "budget" ∨ lvl = "mid" ∨ lvl = "luxe") :
    (estimate_budget city days travellers (some lvl) prefs).budget_level =
      lvl ∧
    (estimate_budget city days travellers (some lvl) prefs).accommodation =
      rateOf ((lookupS CITY_COSTS city).getD
        ((lookupS CITY_COSTS "General").getD [])) lvl * days * travellers ∧
    (estimate_budget city days travellers (some lvl) prefs).transport =
      rateOf TRANSPORT_DAY lvl * days * travellers ∧
    (estimate_budget city days travellers (some lvl) prefs).meals =
      rateOf MEALS_DAY lvl * days * travellers ∧
    (estimate_budget city days travellers (some lvl) prefs).attractions =
      rateOf ATTRACTIONS lvl * days * travellers ∧
    (estimate_budget city days travellers (some lvl) prefs).total =
      pyCeilMul11
        ((estimate_budget city days travellers (some lvl) prefs).accommodation +
         (estimate_budget city days travellers (some lvl) prefs).transport +
         (estimate_budget city days travellers (some lvl) prefs).meals +
         (estimate_budget city days travellers (some lvl) prefs).attractions) ∧
    (estimate_budget city days travellers (some lvl) prefs).buffer_10pct =
      (estimate_budget city days travellers (some lvl) prefs).total -
        ((estimate_budget city days travellers (some lvl) prefs).accommodation +
         (estimate_budget city days travellers (some lvl) prefs).transport +
         (estimate_budget city days travellers (some lvl) prefs).meals +
         (estimate_budget city days travellers (some lvl) prefs).attractions) := by
  rcases hlvl with rfl | rfl | rfl <;>
    exact ⟨rfl, rfl, rfl, rfl, rfl, rfl, rfl⟩

/-- C2 witness: the amended claim at Dubai, 3 days, 2 travelers, tier "mid". -/
theorem claim_C2_witness :
    (estimate_budget "Dubai" 3 2 (some "mid") prefsInit).budget_level =
      "mid" ∧
    (estimate_budget "Dubai" 3 2 (some "mid") prefsInit).accommodation =
      rateOf ((lookupS CITY_COSTS "Dubai").getD
        ((lookupS CITY_COSTS "General").getD [])) "mid" * 3 * 2 ∧
    (estimate_budget "Dubai" 3 2 (some "mid") prefsInit).transport =
      rateOf TRANSPORT_DAY "mid" * 3 * 2 ∧
    (estimate_budget "Dubai" 3 2 (some "mid") prefsInit).meals =
      rateOf MEALS_DAY "mid" * 3 * 2 ∧
    (estimate_budget "Dubai" 3 2 (some "mid") prefsInit).attractions =
      rateOf ATTRACTIONS "mid" * 3 * 2 ∧
    (estimate_budget "Dubai" 3 2 (some "mid") prefsInit).total =
      pyCeilMul11
        ((estimate_budget "Dubai" 3 2 (some "mid") prefsInit).accommodation +
         (estimate_budget "Dubai" 3 2 (some "mid") prefsInit).transport +
         (estimate_budget "Dubai" 3 2 (some "mid") prefsInit).meals +
         (estimate_budget "Dubai" 3 2 (some "mid") prefsInit).attractions) ∧
    (estimate_budget "Dubai" 3 2 (some "mid") prefsInit).buffer_10pct =
      (estimate_budget "Dubai" 3 2 (some "mid") prefsInit).total -
        ((estimate_budget "Dubai" 3 2 (some "mid") prefsInit).accommodation +
         (estimate_budget "Dubai" 3 2 (some "mid") prefsInit).transport +
         (estimate_budget "Dubai" 3 2 (some "mid") prefsInit).meals +
         (estimate_budget "Dubai" 3 2 (some "mid") prefsInit).attractions) :=
  claim_C2 "Dubai" 3 2 "mid" prefsInit (by decide) (by decide) (by decide)

/-- C3 counterexample to the claim as stated: the tools.py `estimate_budget`
(cited by the claim) does not fail on an unrecognized tier or a non-positive
day count: tier "platinum" is silently coerced to "mid" and produces a normal
quote (total 517 for Dubai, 2 days, 1 traveler), and days = 0 is accepted,
producing a quote with total 0. -/
theorem claim_C3_counterexample :
    (estimate_budget "Dubai" 2 1 (some "platinum") prefsInit).budget_level =
      "mid" ∧
    (estimate_budget "Dubai" 2 1 (some "platinum") prefsInit).total = 517 ∧
    (estimate_budget "Dubai" 0 1 (some "mid") prefsInit).total = 0 := by
  refine ⟨?_, ?_, ?_⟩ <;> decide

/-- C3 (amended): the tools.fixed.py `estimate_budget` rejects a style
outside budget/standard/luxury with an error naming the style constraint,
and (for a recognized style) rejects a non-positive day count with an error
naming the days constraint; the tools.py `estimate_budget`, by contrast,
silently coerces an unrecognized budget level to "mid" (and accepts
non-positive day counts, as the counterexample records). -/
theorem claim_C3 :
    (∀ (city : String) (days : Int) (style : Option String),
      ¬(normStyle style = "budget" ∨ normStyle style = "standard" ∨
        normStyle style = "luxury") →
      estimate_budget_fixed city days style =
        .error "style must be budget|standard|luxury") ∧
    (∀ (city : String) (days : Int) (style : Option String),
      (normStyle style = "budget" ∨ normStyle style = "standard" ∨
        normStyle style = "luxury") →
      days ≤ 0 →
      estimate_budget_fixed city days style = .error "days must be > 0") ∧
    (∀ (city : String) (days travellers : Int) (s : String)
        (prefs : List (String × Value)),
      s ≠ "" →
      ¬(pyLower s = "budget" ∨ pyLower s = "mid" ∨ pyLower s = "luxe") →
      (estimate_budget city days travellers (some s) prefs).budget_level =
        "mid") := by
  refine ⟨fun city days style h => ?_, fun city days style h hd => ?_,
    fun city days travellers s prefs hs h => ?_⟩
  · simp [estimate_budget_fixed, h]
  · simp [estimate_budget_fixed, h, hd]
  · simp [estimate_budget, hs, h]

/-- C3 witness: "platinum" is rejected by the fixed variant, days = 0 is
rejected by the fixed variant, and "platinum" is silently coerced to "mid"
by the tools.py variant. -/
theorem claim_C3_witness :
    estimate_budget_fixed "Dubai" 2 (some "platinum") =
      .error "style must be budget|standard|luxury" ∧
    estimate_budget_fixed "Dubai" 0 (some "standard") =
      .error "days must be > 0" ∧
    (estimate_budget "Dubai" 2 1 (some "platinum") prefsInit).budget_level =
      "mid" := by
  obtain ⟨h1, h2, h3⟩ := claim_C3
  exact ⟨h1 "Dubai" 2 (some "platinum") (by decide),
    h2 "Dubai" 0 (some "standard") (by decide) (by decide),
    h3 "Dubai" 2 1 "platinum" prefsInit (by decide) (by decide)⟩

/-- C7: for every city not present in the cost table, the tools.py budget
estimate is the estimate computed from the "General" cost row — every field
agrees with the estimate for city "General" except the echoed city name —
so the result is deterministic and reproducible. -/
theorem claim_C7 (city : String) (days travellers : Int)
    (lvl : Option String) (prefs : List (String × Value))
    (hunk : lookupS CITY_COSTS city = none) :
    estimate_budget city days travellers lvl prefs =
      { estimate_budget "General" days travellers lvl prefs with
        city := city } := by
  have hg : lookupS CITY_COSTS "General" =
      some [("budget", 50), ("mid", 120), ("luxe", 260)] := rfl
  simp [estimate_budget, hunk, hg]

/-- C7 witness: `estimate(city="Unknown City", days=2, travelers=1,
tier="mid")` equals the General-row estimate (with the city name echoed),
and in particular yields the General-row total. -/
theorem claim_C7_witness :
    estimate_budget "Unknown City" 2 1 (some "mid") prefsInit =
      { estimate_budget "General" 2 1 (some "mid") prefsInit with
        city := "Unknown City" } ∧
    (estimate_budget "Unknown City" 2 1 (some "mid") prefsInit).total =
      (estimate_budget "General" 2 1 (some "mid") prefsInit).total := by
  have h := claim_C7 "Unknown City" 2 1 (some "mid") prefsInit (by decide)
  exact ⟨h, by rw [h]⟩

end SmartUAE
